import Mathlib

/-!
Shallow embedding of `strategy_momentum_score.py` (QuantRocket momentum-score
strategy).

Modelling choices, stated once:

* A pandas Series over the shared date index is a total function
  `Nat → Option ℚ`.  `none` is pandas `NaN` ("unknown"); arithmetic on series
  propagates `none` exactly as float arithmetic propagates `NaN`.  Machine
  floats are modelled by exact rationals.
* A DataFrame (one column per instrument, shared date index) is a
  `List (Nat → Option ℚ)`, one series per instrument, in a fixed column
  order.  `Prices.len` is the number of rows (dates) of the frame; cells at
  `t ≥ len` are never part of the frame and are only given values so that the
  functions stay total.
* `df.shift(k)` is `shift k`: `none` for the first `k` dates, else the value
  `k` dates back.
* `rolling(w).std()` takes the sample standard deviation (`ddof = 1`) over a
  full window of `w` observations, `none` while the window is not full of
  known values, and `none` for `w < 2` (pandas yields NaN for a one-element
  sample standard deviation).  The square root applied to the sample variance
  is irrational in general, so it is an explicit parameter `sq : ℚ → ℚ` of
  every definition that needs it; `ratSqrt` is a concrete instance that is
  exact on rationals with square numerator and denominator (in particular
  `ratSqrt 0 = 0`), and every concrete evaluation below only ever takes the
  square root of such a rational, where `ratSqrt` agrees with the real root.
* `rank(axis=1, ascending, pct)` uses average ranks for ties and counts only
  the known (non-`none`) entries of the row, as pandas does.
* The class-level configuration constants of `UpMinusDown` become the fields
  of `Config` (subclasses override them, so theorems quantify over `Config`).
  `REBALANCE_INTERVAL = "M"` is modelled as a period length in dates: the
  date index is partitioned into consecutive blocks of `REBALANCE_INTERVAL`
  dates and the resample label of a block is its last date, matching
  `resample("M")` (label = right/period end) on a dense daily index.
* `prices_to_signals` returns `none` when neither `TOP_N_PCT` nor
  `TOP_N_COUNT` is set, modelling the uncaught `NameError` (`longs` is never
  bound) that the python code raises in that case.
* The benchmark series `df_snp500_returns` (source lines 72-75) is computed
  by the source and never used; it is embedded as the standalone
  `df_snp500_returns` below and, being dead code, does not appear in the
  signal pipeline.
-/

namespace MomentumScore

/-- A pandas series over the shared date index; `none` is `NaN`. -/
abbrev Series : Type := Nat → Option ℚ

/-- `df.shift(k)`: unknown for the first `k` dates, else the value `k` back. -/
def shift (k : Nat) (s : Series) : Series :=
  fun t => if t < k then none else s (t - k)

/-- Division with `NaN` propagation (both operands must be known). -/
def optDiv (a b : Option ℚ) : Option ℚ :=
  a.bind fun x => b.map fun y => x / y

/-- Multiplication with `NaN` propagation. -/
def optMul (a b : Option ℚ) : Option ℚ :=
  a.bind fun x => b.map fun y => x * y

/-- Source line 20-21: `get_return(df, interval) = df / df.shift(interval) - 1.0`. -/
def get_return (s : Series) (interval : Nat) : Series :=
  fun t => (optDiv (s t) (shift interval s t)).map (fun r => r - 1)

/-- Source line 25: `daily_return = df/df.shift(1) - 1`. -/
def dailyReturn (s : Series) : Series :=
  fun t => (optDiv (s t) (shift 1 s t)).map (fun r => r - 1)

/-- Sequence a list of optional values: `some` iff every entry is known. -/
def seqOpt : List (Option ℚ) → Option (List ℚ)
  | [] => some []
  | none :: _ => none
  | some x :: r => (seqOpt r).map (fun xs => x :: xs)

/-- Arithmetic mean of a list of rationals. -/
def mean (l : List ℚ) : ℚ := l.sum / (l.length : ℚ)

/-- Sample variance (`ddof = 1`), as used by pandas `std`. -/
def sampleVar (l : List ℚ) : ℚ :=
  ((l.map (fun x => (x - mean l) ^ 2)).sum) / ((l.length : ℚ) - 1)

/-- Source line 26: `daily_return.rolling(interval_vol).std()`.  The window at
date `t` is the `w` observations `s (t-w+1) … s t`; the result is known only
when the window is full of known values, and a one-observation sample standard
deviation (`w < 2`) is `NaN`.  `sq` is the square-root backend. -/
def rollingStd (sq : ℚ → ℚ) (w : Nat) (s : Series) : Series :=
  fun t =>
    if 2 ≤ w ∧ w ≤ t + 1 then
      (seqOpt ((List.range w).map (fun i => s (t - i)))).map
        (fun xs => sq (sampleVar xs))
    else none

/-- Source lines 23-28: `get_momentum = get_return(df, interval_return) /
(0.05 + daily_return.rolling(interval_vol).std())`. -/
def get_momentum (sq : ℚ → ℚ) (s : Series) (interval_return interval_vol : Nat) : Series :=
  fun t =>
    optDiv (get_return s interval_return t)
      ((rollingStd sq interval_vol (dailyReturn s) t).map (fun v => 1 / 20 + v))

/-- A concrete square-root backend: exact on rationals whose numerator and
denominator are perfect squares (in particular `ratSqrt 0 = 0`), nonnegative
everywhere. -/
def ratSqrt (q : ℚ) : ℚ :=
  if q ≤ 0 then 0 else (Nat.sqrt q.num.toNat : ℚ) / (Nat.sqrt q.den : ℚ)

/-- The everywhere-known constant price series, used as a concrete input. -/
def constSeries (c : ℚ) : Series := fun _ => some c

/-- The class-level configuration constants of `UpMinusDown` (source lines
44-60).  Subclasses override them, so the theorems quantify over this
structure; the source's default values appear in `defaultConfig`.
`TOP_N_PCT`/`TOP_N_COUNT` are `Option` because the source uses `None` to
select the mode.  `REBALANCE_INTERVAL` is the length of a rebalance period in
dates (the model of the pandas frequency string `"M"` on a dense daily
index).  `RANKING_PERIOD_GAP` and `ESCAPE_LONG` are declared by the source
and never read by it; they are fields here for the same reason. -/
structure Config where
  MOMENTUM_WINDOW : Nat
  VOLATILITY_WINDOW : Nat
  RANKING_PERIOD_GAP : Nat
  TOP_N_PCT : Option ℚ
  TOP_N_COUNT : Option ℚ
  LONG_ONLY : Bool
  SHORT_ONLY : Bool
  ESCAPE_LONG : Bool
  ESCAPE_WEEKLY_CHANGE_LIMIT : ℚ
  REBALANCE_INTERVAL : Nat
  PRICE_LOWER_LIMIT : ℚ
  EWM_COM : Option ℚ
  SNP500_WINDOW : Nat

/-- The default configuration of class `UpMinusDown` (source lines 44-60),
with `REBALANCE_INTERVAL = "M"` rendered as 21 trading dates per period. -/
def defaultConfig : Config where
  MOMENTUM_WINDOW := 100
  VOLATILITY_WINDOW := 40
  RANKING_PERIOD_GAP := 22
  TOP_N_PCT := some 50
  TOP_N_COUNT := none
  LONG_ONLY := false
  SHORT_ONLY := false
  ESCAPE_LONG := false
  ESCAPE_WEEKLY_CHANGE_LIMIT := 1 / 10
  REBALANCE_INTERVAL := 21
  PRICE_LOWER_LIMIT := 100
  EWM_COM := none
  SNP500_WINDOW := 50

/-- The price panel handed to the strategy: one close and one open series per
instrument (columns in a fixed shared order) over a shared date index
`0, …, len - 1`. -/
structure Prices where
  closes : List Series
  opens : List Series
  len : Nat

/-- Cell access in a panel: `none` outside the column range. -/
def cellAt (p : List Series) (i t : Nat) : Option ℚ :=
  match p.get? i with
  | some s => s t
  | none => none

/-- The cross-sectional row of a panel at date `t`. -/
def rowAt (p : List Series) (t : Nat) : List (Option ℚ) :=
  p.map (fun s => s t)

/-- Source line 68: `closes.where(closes > PRICE_LOWER_LIMIT)` — a close at
or below the limit becomes unknown (pandas comparison with `NaN` is false,
so unknown closes stay unknown). -/
def maskSeries (limit : ℚ) (s : Series) : Series :=
  fun t =>
    match s t with
    | some v => if limit < v then some v else none
    | none => none

/-- Source line 70: `closes.ewm(com=EWM_COM).mean()` with pandas defaults
(`adjust=True`, `ignore_na=False`): the output at date `t` is the
`(1-α)^(t-j)`-weighted average of the known inputs at dates `j ≤ t`
(`α = 1/(1+com)`), and unknown only while no input is known yet. -/
def ewmMean (com : ℚ) (s : Series) : Series :=
  fun t =>
    let b : ℚ := 1 - 1 / (1 + com)
    let obs : List (Nat × ℚ) :=
      (List.range (t + 1)).filterMap (fun j => (s j).map (fun v => (j, v)))
    let den : ℚ := (obs.map (fun o => b ^ (t - o.1))).sum
    if den = 0 then none else
      some ((obs.map (fun o => b ^ (t - o.1) * o.2)).sum / den)

/-- Source lines 67-70: the close panel after the price-limit mask and the
optional exponential smoothing, which all downstream computation uses. -/
def adjCloses (cfg : Config) (pr : Prices) : List Series :=
  let masked := pr.closes.map (maskSeries cfg.PRICE_LOWER_LIMIT)
  match cfg.EWM_COM with
  | some com => masked.map (ewmMean com)
  | none => masked

/-- Source lines 72-75: the benchmark return series.  It is computed by the
source and never consumed afterwards (dead code); it takes the benchmark
column `bIdx` of the (already optionally smoothed) closes, smooths it again
if `EWM_COM` is set, and takes the `SNP500_WINDOW` trailing return. -/
def df_snp500_returns (cfg : Config) (pr : Prices) (bIdx : Nat) : Series :=
  let s : Series := fun t => cellAt (adjCloses cfg pr) bIdx t
  let s2 : Series :=
    match cfg.EWM_COM with
    | some com => ewmMean com s
    | none => s
  get_return s2 cfg.SNP500_WINDOW

/-- Source line 78: the momentum-score panel. -/
def momentumPanel (sq : ℚ → ℚ) (cfg : Config) (pr : Prices) : List Series :=
  (adjCloses cfg pr).map
    (fun s => get_momentum sq s cfg.MOMENTUM_WINDOW cfg.VOLATILITY_WINDOW)

/-- Source line 79: `weekly_returns = get_return(closes, 5)`. -/
def weeklyPanel (cfg : Config) (pr : Prices) : List Series :=
  (adjCloses cfg pr).map (fun s => get_return s 5)

/-- pandas `rank` with the default average-tie method, restricted to the
known values `vals` of a row: the rank of `v` is the number of values
strictly before it plus the average position within its tie group. -/
def rankAvg (asc : Bool) (vals : List ℚ) (v : ℚ) : ℚ :=
  let before := vals.countP (fun w => if asc then decide (w < v) else decide (v < w))
  let ties := vals.countP (fun w => decide (w = v))
  (before : ℚ) + ((ties : ℚ) + 1) / 2

/-- The known entries of a cross-sectional row (pandas rank skips `NaN`). -/
def definedVals (row : List (Option ℚ)) : List ℚ :=
  row.filterMap id

/-- pandas `rank(axis=1, pct=True)`: average rank divided by the number of
known values in the row. -/
def pctRank (asc : Bool) (row : List (Option ℚ)) (v : ℚ) : ℚ :=
  rankAvg asc (definedVals row) v / ((definedVals row).length : ℚ)

/-- The pair of boolean candidate panels `longs`/`shorts`, as functions of
(instrument index, date). -/
structure Sel where
  longs : Nat → Nat → Bool
  shorts : Nat → Nat → Bool

/-- Source lines 81-98: ranking/selection.  Percentile mode when `TOP_N_PCT`
is set (checked first, so it takes precedence); otherwise count mode when
`TOP_N_COUNT` is set; otherwise `none`, modelling the uncaught `NameError`
(`longs`/`shorts` are never bound).  An instrument with unknown momentum has
`NaN` rank, and a pandas comparison with `NaN` is false. -/
def selPanels (cfg : Config) (mom : List Series) : Option Sel :=
  match cfg.TOP_N_PCT with
  | some pct =>
      some
        { longs := fun i t =>
            match cellAt mom i t with
            | some v => decide (pctRank false (rowAt mom t) v ≤ pct / 100)
            | none => false
          shorts := fun i t =>
            match cellAt mom i t with
            | some v => decide (pctRank true (rowAt mom t) v ≤ pct / 100)
            | none => false }
  | none =>
    match cfg.TOP_N_COUNT with
    | some cnt =>
        some
          { longs := fun i t =>
              match cellAt mom i t with
              | some v => decide (rankAvg false (definedVals (rowAt mom t)) v ≤ cnt)
              | none => false
            shorts := fun i t =>
              match cellAt mom i t with
              | some v => decide (rankAvg true (definedVals (rowAt mom t)) v ≤ cnt)
              | none => false }
    | none => none

/-- Source lines 100-106: `longs = neutral.where(weekly_returns <
-ESCAPE_WEEKLY_CHANGE_LIMIT, longs).astype(int)` — the long candidate as an
integer 0/1, forced to 0 where the weekly return is below the negative
escape limit (comparison with unknown weekly return is false). -/
def longsInt (cfg : Config) (weekly : List Series) (sel : Sel) (i t : Nat) : Int :=
  if (match cellAt weekly i t with
      | some w => decide (w < -cfg.ESCAPE_WEEKLY_CHANGE_LIMIT)
      | none => false)
  then 0
  else if sel.longs i t then 1 else 0

/-- Source lines 100-107: `shorts = -neutral.where(weekly_returns >
ESCAPE_WEEKLY_CHANGE_LIMIT, shorts).astype(int)` — the short candidate as an
integer 0 or -1, forced to 0 where the weekly return is above the escape
limit. -/
def shortsInt (cfg : Config) (weekly : List Series) (sel : Sel) (i t : Nat) : Int :=
  if (match cellAt weekly i t with
      | some w => decide (cfg.ESCAPE_WEEKLY_CHANGE_LIMIT < w)
      | none => false)
  then 0
  else if sel.shorts i t then -1 else 0

/-- Source lines 109-115: combine long and short signals.  `LONG_ONLY` emits
only longs, `SHORT_ONLY` only shorts, otherwise
`signals = longs.where(longs == 1, shorts)`. -/
def combineSignals (cfg : Config) (l s : Nat → Nat → Int) (i t : Nat) : Int :=
  if cfg.LONG_ONLY then l i t
  else if cfg.SHORT_ONLY then s i t
  else if l i t = 1 then l i t else s i t

/-- The combined signal cell before the rebalancing resample (the value of
`signals` at source line 115); `none` when neither selection mode is
configured (the `NameError` case). -/
def combinedCell (sq : ℚ → ℚ) (cfg : Config) (pr : Prices) (i t : Nat) : Option Int :=
  match selPanels cfg (momentumPanel sq cfg pr) with
  | some sel =>
      some (combineSignals cfg
        (longsInt cfg (weeklyPanel cfg pr) sel)
        (shortsInt cfg (weeklyPanel cfg pr) sel) i t)
  | none => none

/-- The long candidate cell (integer 0/1) before combination, `none` in the
`NameError` case. -/
def longsCell (sq : ℚ → ℚ) (cfg : Config) (pr : Prices) (i t : Nat) : Option Int :=
  match selPanels cfg (momentumPanel sq cfg pr) with
  | some sel => some (longsInt cfg (weeklyPanel cfg pr) sel i t)
  | none => none

/-- The short candidate cell (integer 0 or -1) before combination, `none` in the
`NameError` case. -/
def shortsCell (sq : ℚ → ℚ) (cfg : Config) (pr : Prices) (i t : Nat) : Option Int :=
  match selPanels cfg (momentumPanel sq cfg pr) with
  | some sel => some (shortsInt cfg (weeklyPanel cfg pr) sel i t)
  | none => none

/-- Source lines 119-120: `signals.resample(REBALANCE_INTERVAL).last()`
followed by `reindex(closes.index, method="ffill")`.  On a dense daily index
the resampled frame has one row per period of `P` dates, labelled with the
period-end date `q*P + P - 1` and holding the last in-frame signal of the
period (`min (n-1) (q*P + P - 1)` for the possibly partial final period of a
frame with `n` dates); re-indexing with forward fill gives date `t` the value
of the greatest label `≤ t`, and unknown (`NaN`) before the first label. -/
def resampleLastFfill (P n : Nat) (s : Nat → Int) : Nat → Option Int :=
  fun t =>
    if P = 0 then none
    else if t + 1 < P then none
    else some (s (min (n - 1) (((t + 1 - P) / P) * P + (P - 1))))

/-- Source lines 62-122: `prices_to_signals`.  Returns `none` when neither
selection mode is configured (the uncaught `NameError`); otherwise the
signal frame, one integer series per instrument, after the rebalancing
resample (whose re-indexing makes the leading dates of the frame unknown). -/
def prices_to_signals (sq : ℚ → ℚ) (cfg : Config) (pr : Prices) :
    Option (List (Nat → Option Int)) :=
  match selPanels cfg (momentumPanel sq cfg pr) with
  | some sel =>
      let signals := combineSignals cfg
        (longsInt cfg (weeklyPanel cfg pr) sel)
        (shortsInt cfg (weeklyPanel cfg pr) sel)
      some ((List.range pr.closes.length).map
        (fun i => resampleLastFfill cfg.REBALANCE_INTERVAL pr.len (signals i)))
  | none => none

/-- One cell of the returned signal frame; `none` both for a `NaN` cell and
in the `NameError` case. -/
def signalCell (sq : ℚ → ℚ) (cfg : Config) (pr : Prices) (i t : Nat) : Option Int :=
  match prices_to_signals sq cfg pr with
  | some sig =>
      match sig.get? i with
      | some c => c t
      | none => none
  | none => none

/-- Source line 143: `target_weights_to_positions` returns `weights.shift()`.
(The `prices` argument of the source method is unused by it.) -/
def target_weights_to_positions (weights : List Series) : List Series :=
  weights.map (shift 1)

/-- Forward fill: the most recent known value at or before `t` (pandas
`fillna(method="pad")`, which `pct_change` applies to its input by
default). -/
def ffillS (s : Series) : Nat → Option ℚ
  | 0 => s 0
  | t + 1 =>
      match s (t + 1) with
      | some v => some v
      | none => ffillS s t

/-- pandas `opens.pct_change()` (source line 156): forward-fill, then the
period-over-period percent change `padded t / padded (t-1) - 1`, unknown at
`t = 0`. -/
def pct_change (s : Series) : Series :=
  fun t =>
    if t = 0 then none
    else (optDiv (ffillS s t) (ffillS s (t - 1))).map (fun r => r - 1)

/-- Source lines 145-157: `positions_to_gross_returns` returns
`opens.pct_change() * positions.shift()`, columnwise over the shared
instrument order. -/
def positions_to_gross_returns (positions : List Series) (pr : Prices) : List Series :=
  List.zipWith (fun o p => fun t => optMul (pct_change o t) (shift 1 p t))
    pr.opens positions

/-- The everywhere-known affine price series `t ↦ t + 1`, a concrete input. -/
def linSeries : Series := fun u => some ((u : ℚ) + 1)

/-- The empty price panel (no instruments, no dates), a concrete input. -/
def emptyPrices : Prices := ⟨[], [], 0⟩

/-- The default configuration with both selection modes unset, exercising the
`NameError` path of `prices_to_signals`. -/
def cfgNeither : Config :=
  { defaultConfig with TOP_N_PCT := none, TOP_N_COUNT := none }

/-- The default configuration with the escape limit lowered to `-1`, so that
a zero weekly return already exceeds the (negative) limit; used to witness
the escape theorem at a concrete input. -/
def cfgEscW : Config :=
  { defaultConfig with ESCAPE_WEEKLY_CHANGE_LIMIT := -1 }

/-- A one-instrument panel with constant close 200, nine dates. -/
def pricesConst : Prices := ⟨[constSeries 200], [], 9⟩

/-- A one-instrument panel whose constant close 50 sits below the default
price limit on every date. -/
def pricesLow : Prices := ⟨[constSeries 50], [], 1⟩

/-- The default strategy constants with small windows
(`MOMENTUM_WINDOW = VOLATILITY_WINDOW = 2`) and an 8-date rebalance period,
so that the rebalance effect appears on a 9-date frame. -/
def cfgC3 : Config :=
  { defaultConfig with
      MOMENTUM_WINDOW := 2
      VOLATILITY_WINDOW := 2
      REBALANCE_INTERVAL := 8 }

/-- Instrument A of the C3 panel: close 200 on every date except a jump to
240 at date 8, so its weekly (5-period) return at date 8 is 20%. -/
def seriesC3A : Series := fun t => some (if t = 8 then 240 else 200)

/-- Instrument B of the C3 panel: closes growing 10% per date, the momentum
winner. -/
def seriesC3B : Series := fun t => some (200 * (11 / 10) ^ t)

/-- The two-instrument, nine-date panel of the C3 counterexample. -/
def pricesC3 : Prices := ⟨[seriesC3A, seriesC3B], [], 9⟩

/-- The default strategy constants with small windows and a 2-date rebalance
period, for the C4 counterexample. -/
def cfgC4 : Config :=
  { defaultConfig with
      MOMENTUM_WINDOW := 2
      VOLATILITY_WINDOW := 2
      REBALANCE_INTERVAL := 2 }

/-- Instrument A of the C4 panel: flat at 200 through date 3, then rising
10% per date — the loser at date 3 and the winner at date 5. -/
def seriesC4A : Series :=
  fun t => some (if t ≤ 3 then 200 else if t = 4 then 220 else 242)

/-- Instrument B of the C4 panel: rising 10% per date through date 3, then
flat — the winner at date 3 and the loser at date 5. -/
def seriesC4B : Series :=
  fun t => some (if t ≤ 3 then 200 * (11 / 10) ^ t else 2662 / 10)

/-- The two-instrument, six-date panel of the C4 counterexample. -/
def pricesC4 : Prices := ⟨[seriesC4A, seriesC4B], [], 6⟩

/-- The default strategy constants with small windows, exponential smoothing
enabled (`EWM_COM = 1`) and `TOP_N_PCT = 100`, for the C6 counterexample. -/
def cfgC6 : Config :=
  { defaultConfig with
      MOMENTUM_WINDOW := 2
      VOLATILITY_WINDOW := 2
      REBALANCE_INTERVAL := 2
      TOP_N_PCT := some 100
      EWM_COM := some 1 }

/-- Instrument A of the C6 panel: close 200 everywhere except 90 (below the
price limit of 100) at date 3, the date under scrutiny. -/
def seriesC6A : Series := fun t => some (if t = 3 then 90 else 200)

/-- The two-instrument, six-date panel of the C6 counterexample. -/
def pricesC6 : Prices := ⟨[seriesC6A, constSeries 200], [], 6⟩

/-- C1: for every price series `p` and lookback `k > 0`, `get_return`
returns `p t / p (t-k) - 1` at every `t ≥ k` where both prices are known,
is unknown for every `t < k`, and is unknown wherever the denominator price
`p (t-k)` is unknown. -/
theorem c1_get_return (p : Series) (k : Nat) (hk : 0 < k) (t : Nat) :
    (∀ a b : ℚ, k ≤ t → p t = some a → p (t - k) = some b →
      get_return p k t = some (a / b - 1)) ∧
    (t < k → get_return p k t = none) ∧
    (p (t - k) = none → get_return p k t = none) := by
  refine ⟨?_, ?_, ?_⟩
  · intro a b hkt ha hb
    simp [get_return, shift, optDiv, Nat.not_lt_of_le hkt, ha, hb]
  · intro hlt
    simp [get_return, shift, optDiv, hlt]
  · intro hb
    by_cases hlt : t < k
    · simp [get_return, shift, optDiv, hlt]
    · simp [get_return, shift, optDiv, hlt, hb]

/-- Witness for `c1_get_return` at a concrete series and date. -/
theorem c1_get_return_witness :
    get_return (fun u => some ((u : ℚ) + 1)) 1 1 = some (2 / 1 - 1) :=
  (c1_get_return (fun u => some ((u : ℚ) + 1)) 1 (by decide) 1).1 2 1
    (by decide) (by norm_num) (by norm_num)

theorem optDiv_none_right (a : Option ℚ) : optDiv a none = none := by
  cases a <;> rfl

theorem optDiv_none_left (b : Option ℚ) : optDiv none b = none := rfl

theorem seqOpt_all_some :
    ∀ l : List (Option ℚ), (∀ x ∈ l, x.isSome) → ∃ ys, seqOpt l = some ys
  | [], _ => ⟨[], rfl⟩
  | none :: r, h => absurd (h none (List.mem_cons_self _ _)) (by simp)
  | some x :: r, h => by
    obtain ⟨ys, hys⟩ := seqOpt_all_some r (fun y hy => h y (List.mem_cons_of_mem _ hy))
    exact ⟨x :: ys, by simp [seqOpt, hys]⟩

theorem seqOpt_eq_none :
    ∀ l : List (Option ℚ), (none ∈ l) → seqOpt l = none
  | none :: r, h => rfl
  | some x :: r, h => by
    have hr : (none : Option ℚ) ∈ r := by
      rcases List.mem_cons.mp h with h1 | h1
      · exact absurd h1 (by simp)
      · exact h1
    simp [seqOpt, seqOpt_eq_none r hr]

/-- C2 counterexample: with `interval_vol = 1` (a legal parameter value) and a
price series that is known everywhere, the momentum score is still unknown at
`t = max interval_return interval_vol`, because a one-observation sample
standard deviation is `NaN` in pandas; this refutes "defined thereafter" as
stated for every parameter pair. -/
theorem c2_counterexample :
    max 1 1 ≤ 1 ∧ (∀ u, (constSeries 200 u).isSome) ∧
    get_momentum ratSqrt (constSeries 200) 1 1 1 = none := by
  refine ⟨by decide, fun _ => rfl, ?_⟩
  simp [get_momentum, rollingStd, optDiv_none_right]

/-- C2 (amended): for every square-root backend, every price series that is
known everywhere, and every `interval_return` and `interval_vol ≥ 2` (the
source default is 40), the momentum score equals
`ret / (0.05 + vol)`, is unknown for every `t < max interval_return
interval_vol`, is defined for every `t ≥ max interval_return interval_vol`,
and its denominator `0.05 + vol` is strictly positive whenever the volatility
value is non-negative (so there is no division by zero). -/
theorem c2_momentum (sq : ℚ → ℚ) (p : Series) (ir iv : Nat)
    (hiv : 2 ≤ iv) (hp : ∀ u, (p u).isSome) (t : Nat) :
    get_momentum sq p ir iv t
        = optDiv (get_return p ir t)
            ((rollingStd sq iv (dailyReturn p) t).map (fun v => 1 / 20 + v)) ∧
    (t < max ir iv → get_momentum sq p ir iv t = none) ∧
    (max ir iv ≤ t → ∃ m, get_momentum sq p ir iv t = some m) ∧
    (∀ v, rollingStd sq iv (dailyReturn p) t = some v → 0 ≤ v → 0 < 1 / 20 + v) := by
  refine ⟨rfl, ?_, ?_, ?_⟩
  · intro hlt
    rcases Nat.lt_or_ge t ir with hir | hir
    · have hret : get_return p ir t = none := by
        simp [get_return, shift, optDiv, hir]
      simp [get_momentum, hret, optDiv_none_left]
    · have hiv' : t < iv := by
        rcases max_cases ir iv with ⟨hm, _⟩ | ⟨hm, _⟩ <;> omega
      have hvol : rollingStd sq iv (dailyReturn p) t = none := by
        by_cases hle : iv ≤ t + 1
        · have hmem : (none : Option ℚ)
              ∈ (List.range iv).map (fun i => dailyReturn p (t - i)) := by
            refine List.mem_map.mpr ⟨t, List.mem_range.mpr (by omega), ?_⟩
            simp [dailyReturn, shift, optDiv, Nat.sub_self, optDiv_none_right]
          rw [rollingStd, if_pos ⟨hiv, hle⟩, seqOpt_eq_none _ hmem]
          rfl
        · rw [rollingStd, if_neg (by tauto)]
      rw [get_momentum, hvol]
      exact optDiv_none_right _
  · intro hge
    have hir : ir ≤ t := le_trans (le_max_left _ _) hge
    have hivt : iv ≤ t := le_trans (le_max_right _ _) hge
    obtain ⟨a, ha⟩ := Option.isSome_iff_exists.mp (hp t)
    obtain ⟨b, hb⟩ := Option.isSome_iff_exists.mp (hp (t - ir))
    have hret : get_return p ir t = some (a / b - 1) := by
      simp [get_return, shift, optDiv, Nat.not_lt_of_le hir, ha, hb]
    have hall : ∀ x ∈ (List.range iv).map (fun i => dailyReturn p (t - i)), x.isSome := by
      intro x hx
      rcases List.mem_map.mp hx with ⟨i, hi, rfl⟩
      have hi' : i < iv := List.mem_range.mp hi
      have h1 : 1 ≤ t - i := by omega
      obtain ⟨c, hc⟩ := Option.isSome_iff_exists.mp (hp (t - i))
      obtain ⟨d, hd⟩ := Option.isSome_iff_exists.mp (hp (t - i - 1))
      simp [dailyReturn, shift, optDiv, Nat.not_lt_of_le h1, hc, hd]
    obtain ⟨xs, hxs⟩ := seqOpt_all_some _ hall
    refine ⟨(a / b - 1) / (1 / 20 + sq (sampleVar xs)), ?_⟩
    rw [get_momentum, hret, rollingStd, if_pos ⟨hiv, by omega⟩, hxs]
    rfl
  · intro v _ hnn
    linarith

/-- Witness for `c2_momentum`: with the concrete backend `ratSqrt`, the
constant price series `200`, `interval_return = 1` and `interval_vol = 2`,
the momentum score is defined at `t = 2 = max 1 2`. -/
theorem c2_momentum_witness :
    ∃ m, get_momentum ratSqrt (constSeries 200) 1 2 2 = some m :=
  (c2_momentum ratSqrt (constSeries 200) 1 2 (by decide) (fun _ => rfl) 2).2.2.1
    (by decide)

theorem longsInt_eq_zero_or_one (cfg : Config) (w : List Series) (sel : Sel) (i t : Nat) :
    longsInt cfg w sel i t = 0 ∨ longsInt cfg w sel i t = 1 := by
  unfold longsInt
  split
  · exact Or.inl rfl
  · split
    · exact Or.inr rfl
    · exact Or.inl rfl

theorem shortsInt_eq_zero_or_neg (cfg : Config) (w : List Series) (sel : Sel) (i t : Nat) :
    shortsInt cfg w sel i t = 0 ∨ shortsInt cfg w sel i t = -1 := by
  unfold shortsInt
  split
  · exact Or.inl rfl
  · split
    · exact Or.inr rfl
    · exact Or.inl rfl

theorem longsInt_escape (cfg : Config) (w : List Series) (sel : Sel) (i t : Nat)
    (x : ℚ) (hx : cellAt w i t = some x)
    (h : x < -cfg.ESCAPE_WEEKLY_CHANGE_LIMIT) : longsInt cfg w sel i t = 0 := by
  unfold longsInt
  rw [hx]
  simp [h]

theorem shortsInt_escape (cfg : Config) (w : List Series) (sel : Sel) (i t : Nat)
    (x : ℚ) (hx : cellAt w i t = some x)
    (h : cfg.ESCAPE_WEEKLY_CHANGE_LIMIT < x) : shortsInt cfg w sel i t = 0 := by
  unfold shortsInt
  rw [hx]
  simp [h]

/-- C3 (amended): the escape overlay is a property of the combined signal at
the date where it is computed, i.e. before the rebalancing resample: for
every configuration and panel, wherever the 5-period (weekly) return is known
and above `ESCAPE_WEEKLY_CHANGE_LIMIT`, the pre-resample combined signal is
never `-1`, and wherever it is known and below the negative limit, the
pre-resample combined signal is never `+1`.  (After the resample/forward
fill of source lines 119-120 the returned panel carries each period-end
signal across later dates, where the weekly return differs, so the claim as
stated about the returned panel fails; see the counterexample.) -/
theorem c3_escape_combined (sq : ℚ → ℚ) (cfg : Config) (pr : Prices) (i t : Nat)
    (w : ℚ) (hw : cellAt (weeklyPanel cfg pr) i t = some w) :
    (cfg.ESCAPE_WEEKLY_CHANGE_LIMIT < w → combinedCell sq cfg pr i t ≠ some (-1)) ∧
    (w < -cfg.ESCAPE_WEEKLY_CHANGE_LIMIT → combinedCell sq cfg pr i t ≠ some 1) := by
  unfold combinedCell
  cases hsel : selPanels cfg (momentumPanel sq cfg pr) with
  | none =>
    constructor
    · intro _ h
      simp at h
    · intro _ h
      simp at h
  | some sel =>
    constructor
    · intro hgt hc
      replace hc := Option.some.inj hc
      have hs : shortsInt cfg (weeklyPanel cfg pr) sel i t = 0 :=
        shortsInt_escape cfg _ sel i t w hw hgt
      have hl := longsInt_eq_zero_or_one cfg (weeklyPanel cfg pr) sel i t
      unfold combineSignals at hc
      by_cases hL : cfg.LONG_ONLY
      · rw [if_pos hL] at hc
        rcases hl with h | h <;> omega
      · rw [if_neg hL] at hc
        by_cases hS : cfg.SHORT_ONLY
        · rw [if_pos hS] at hc
          omega
        · rw [if_neg hS] at hc
          rcases hl with h | h <;> rw [h] at hc <;> simp at hc <;> omega
    · intro hlt hc
      replace hc := Option.some.inj hc
      have hl : longsInt cfg (weeklyPanel cfg pr) sel i t = 0 :=
        longsInt_escape cfg _ sel i t w hw hlt
      have hs := shortsInt_eq_zero_or_neg cfg (weeklyPanel cfg pr) sel i t
      unfold combineSignals at hc
      by_cases hL : cfg.LONG_ONLY
      · rw [if_pos hL] at hc
        omega
      · rw [if_neg hL] at hc
        by_cases hS : cfg.SHORT_ONLY
        · rw [if_pos hS] at hc
          rcases hs with h | h <;> omega
        · rw [if_neg hS] at hc
          rw [hl] at hc
          simp at hc
          rcases hs with h | h <;> omega

/-- Witness for `c3_escape_combined`: a constant-price one-instrument panel
with the escape limit set to `-1`, so the (zero) weekly return at date 5
exceeds the limit and the combined signal there cannot be `-1`. -/
theorem c3_escape_combined_witness :
    combinedCell ratSqrt cfgEscW pricesConst 0 5 ≠ some (-1) :=
  (c3_escape_combined ratSqrt cfgEscW pricesConst 0 5 0
    (by norm_num [cellAt, weeklyPanel, adjCloses, cfgEscW, defaultConfig, pricesConst,
      maskSeries, constSeries, get_return, shift, optDiv])).1
    (by norm_num [cfgEscW, defaultConfig])

/-- C5: with `LONG_ONLY` and `SHORT_ONLY` both false, every defined cell of
the combined (pre-resample) signal equals the long signal where the long
signal is `1` and the short signal elsewhere (so long takes priority when
both would trigger, and no cell is ever simultaneously `+1` and `-1`), and
every cell is in `{-1, 0, 1}`. -/
theorem c5_combined (sq : ℚ → ℚ) (cfg : Config) (pr : Prices) (i t : Nat)
    (hL : cfg.LONG_ONLY = false) (hS : cfg.SHORT_ONLY = false) (c : Int)
    (hc : combinedCell sq cfg pr i t = some c) :
    (∃ l s, longsCell sq cfg pr i t = some l ∧ shortsCell sq cfg pr i t = some s ∧
        c = if l = 1 then l else s) ∧
    (c = -1 ∨ c = 0 ∨ c = 1) := by
  unfold combinedCell at hc
  cases hsel : selPanels cfg (momentumPanel sq cfg pr) with
  | none => rw [hsel] at hc; cases hc
  | some sel =>
    rw [hsel] at hc
    replace hc := Option.some.inj hc
    unfold combineSignals at hc
    rw [hL, hS] at hc
    simp only [Bool.false_eq_true, if_false] at hc
    refine ⟨⟨longsInt cfg (weeklyPanel cfg pr) sel i t,
      shortsInt cfg (weeklyPanel cfg pr) sel i t, ?_, ?_, hc.symm⟩, ?_⟩
    · unfold longsCell
      rw [hsel]
    · unfold shortsCell
      rw [hsel]
    · have hl := longsInt_eq_zero_or_one cfg (weeklyPanel cfg pr) sel i t
      have hs := shortsInt_eq_zero_or_neg cfg (weeklyPanel cfg pr) sel i t
      rcases hl with h | h <;> rw [h] at hc <;> simp at hc <;> rcases hs with h' | h' <;> omega

/-- Witness for `c5_combined`: the empty panel under the default
configuration, whose combined signal cell is a defined `0`. -/
theorem c5_combined_witness :
    (∃ l s, longsCell ratSqrt defaultConfig emptyPrices 0 0 = some l ∧
        shortsCell ratSqrt defaultConfig emptyPrices 0 0 = some s ∧
        (0 : Int) = if l = 1 then l else s) ∧
    ((0 : Int) = -1 ∨ (0 : Int) = 0 ∨ (0 : Int) = 1) :=
  c5_combined ratSqrt defaultConfig emptyPrices 0 0 rfl rfl 0 rfl

/-- C7: two runs of `prices_to_signals` that differ only in the value of
`RANKING_PERIOD_GAP` produce identical signal panels, for every square-root
backend, configuration and panel: the declared gap (source line 47) is never
read by the ranking computation. -/
theorem c7_ranking_period_gap (sq : ℚ → ℚ) (cfg : Config) (pr : Prices) (g g' : Nat) :
    prices_to_signals sq { cfg with RANKING_PERIOD_GAP := g } pr
      = prices_to_signals sq { cfg with RANKING_PERIOD_GAP := g' } pr := rfl

/-- C8: `target_weights_to_positions` returns exactly the weight panel
shifted forward by one period — the position cell at date `t` equals the
weight cell at `t - 1`, is unknown at the first date, and nothing else is
altered (the equality characterises every cell of the output). -/
theorem c8_positions_shift (weights : List Series) (i t : Nat) :
    cellAt (target_weights_to_positions weights) i t
      = if t = 0 then none else cellAt weights i (t - 1) := by
  unfold target_weights_to_positions cellAt
  rw [List.get?_map]
  cases h : weights.get? i with
  | none => simp
  | some s => simp [shift, Nat.lt_one_iff]

theorem get?_zipWith2 {α β γ : Type} (f : α → β → γ) :
    ∀ (l1 : List α) (l2 : List β) (i : Nat),
      (List.zipWith f l1 l2).get? i
        = (l1.get? i).bind (fun a => (l2.get? i).map (fun b => f a b))
  | [], l2, i => rfl
  | a :: l1, [], 0 => rfl
  | a :: l1, [], i + 1 => by
    cases h : l1.get? i <;> simp [h]
  | a :: l1, b :: l2, 0 => rfl
  | a :: l1, b :: l2, i + 1 => by
    simpa using get?_zipWith2 f l1 l2 i

theorem ffillS_of_some (s : Series) (u : Nat) (x : ℚ) (h : s u = some x) :
    ffillS s u = some x := by
  cases u with
  | zero => simpa [ffillS] using h
  | succ v => simp [ffillS, h]

/-- C9: `positions_to_gross_returns` multiplies the period-over-period
percent change of the "Open" field by the position shifted one further
period: at every date `t ≥ 1` with known opens at `t` and `t-1` (nonzero
denominator) and known position at `t-1`, the gross return is
`(open t / open (t-1) - 1) * position (t-1)` — a total lag of two periods
behind the weights, since positions are already the weights shifted once. -/
theorem c9_gross_returns (positions : List Series) (pr : Prices) (i t : Nat)
    (a b c : ℚ) (ht : 1 ≤ t) (hbz : b ≠ 0)
    (ha : cellAt pr.opens i t = some a) (hb : cellAt pr.opens i (t - 1) = some b)
    (hc : cellAt positions i (t - 1) = some c) :
    cellAt (positions_to_gross_returns positions pr) i t = some ((a / b - 1) * c) := by
  unfold cellAt at ha hb hc ⊢
  cases ho : pr.opens.get? i with
  | none => rw [ho] at ha; cases ha
  | some o =>
    rw [ho] at ha hb
    cases hp : positions.get? i with
    | none => rw [hp] at hc; cases hc
    | some p =>
      rw [hp] at hc
      replace ha : o t = some a := ha
      replace hb : o (t - 1) = some b := hb
      replace hc : p (t - 1) = some c := hc
      unfold positions_to_gross_returns
      rw [get?_zipWith2 _ pr.opens positions i, ho, hp]
      have hft : ffillS o t = some a := ffillS_of_some o t a ha
      have hft1 : ffillS o (t - 1) = some b := ffillS_of_some o (t - 1) b hb
      have htz : t ≠ 0 := by omega
      have hpc : pct_change o t = some (a / b - 1) := by
        simp [pct_change, optDiv, hft, hft1, htz]
      have hsh : shift 1 p t = some c := by
        simp [shift, Nat.lt_one_iff, htz, hc]
      show optMul (pct_change o t) (shift 1 p t) = some ((a / b - 1) * c)
      rw [hpc, hsh]
      rfl

/-- Witness for `c9_gross_returns` at a one-instrument panel with opens
`t + 1` and constant position `1/2`, at date 1. -/
theorem c9_gross_returns_witness :
    cellAt (positions_to_gross_returns [constSeries (1 / 2)]
        ⟨[], [linSeries], 2⟩) 0 1 = some ((2 / 1 - 1) * (1 / 2)) :=
  c9_gross_returns [constSeries (1 / 2)] ⟨[], [linSeries], 2⟩ 0 1 2 1 (1 / 2)
    (by decide) (by norm_num)
    (by norm_num [cellAt, linSeries])
    (by norm_num [cellAt, linSeries])
    (by norm_num [cellAt, constSeries])

theorem signalCell_resample (sq : ℚ → ℚ) (cfg : Config) (pr : Prices) (i t : Nat)
    (hP : cfg.REBALANCE_INTERVAL ≠ 0) (hi : i < pr.closes.length)
    (ht : cfg.REBALANCE_INTERVAL ≤ t + 1) :
    signalCell sq cfg pr i t
      = combinedCell sq cfg pr i
          (min (pr.len - 1)
            ((t + 1 - cfg.REBALANCE_INTERVAL) / cfg.REBALANCE_INTERVAL *
                cfg.REBALANCE_INTERVAL + (cfg.REBALANCE_INTERVAL - 1))) := by
  unfold signalCell prices_to_signals combinedCell
  cases hsel : selPanels cfg (momentumPanel sq cfg pr) with
  | none => rfl
  | some sel =>
    simp only [List.get?_map, List.get?_range hi, Option.map_some']
    unfold resampleLastFfill
    rw [if_neg hP, if_neg (by omega : ¬ t + 1 < cfg.REBALANCE_INTERVAL)]

theorem signalCell_before_first (sq : ℚ → ℚ) (cfg : Config) (pr : Prices) (i t : Nat)
    (ht : t + 1 < cfg.REBALANCE_INTERVAL) :
    signalCell sq cfg pr i t = none := by
  unfold signalCell prices_to_signals
  cases hsel : selPanels cfg (momentumPanel sq cfg pr) with
  | none => rfl
  | some sel =>
    simp only [List.get?_map]
    cases hr : (List.range pr.closes.length).get? i with
    | none => rfl
    | some j =>
      simp only [Option.map_some']
      unfold resampleLastFfill
      rw [if_neg (by omega : ¬ cfg.REBALANCE_INTERVAL = 0), if_pos ht]

theorem combinedCellC3 : combinedCell ratSqrt cfgC3 pricesC3 0 7 = some (-1) := by
  have hrow : rowAt (momentumPanel ratSqrt cfgC3 pricesC3) 7 = [some 0, some (21 / 5)] := by
    norm_num [rowAt, momentumPanel, adjCloses, cfgC3, defaultConfig, pricesC3,
      get_momentum, get_return, dailyReturn, rollingStd, shift, optDiv, seqOpt,
      maskSeries, seriesC3A, seriesC3B, mean, sampleVar, ratSqrt, List.range_succ]
  have hm0 : cellAt (momentumPanel ratSqrt cfgC3 pricesC3) 0 7 = some 0 := by
    norm_num [cellAt, momentumPanel, adjCloses, cfgC3, defaultConfig, pricesC3,
      get_momentum, get_return, dailyReturn, rollingStd, shift, optDiv, seqOpt,
      maskSeries, seriesC3A, mean, sampleVar, ratSqrt, List.range_succ]
  have hw : cellAt (weeklyPanel cfgC3 pricesC3) 0 7 = some 0 := by
    norm_num [cellAt, weeklyPanel, adjCloses, cfgC3, defaultConfig, pricesC3,
      maskSeries, seriesC3A, get_return, shift, optDiv]
  have hpct : cfgC3.TOP_N_PCT = some 50 := rfl
  have hesc : cfgC3.ESCAPE_WEEKLY_CHANGE_LIMIT = 1 / 10 := rfl
  have hlo : cfgC3.LONG_ONLY = false := rfl
  have hso : cfgC3.SHORT_ONLY = false := rfl
  norm_num [combinedCell, selPanels, combineSignals, longsInt, shortsInt,
    hpct, hesc, hlo, hso, hm0, hrow, hw, pctRank, definedVals, rankAvg,
    List.countP_cons, List.countP_nil, List.filterMap_cons, List.filterMap_nil]

/-- C3 counterexample: in the returned (post-resample) signal panel of the
C3 configuration and panel, instrument A at date 8 has weekly return
20% > `ESCAPE_WEEKLY_CHANGE_LIMIT`, yet its returned signal that date is
`-1`: the rebalancing forward fill carries the short signal computed at the
period end (date 7, where A was the momentum loser and its weekly return was
0) into date 8.  The claim as stated about the returned panel is false. -/
theorem c3_counterexample :
    cellAt (weeklyPanel cfgC3 pricesC3) 0 8 = some (1 / 5) ∧
    cfgC3.ESCAPE_WEEKLY_CHANGE_LIMIT < 1 / 5 ∧
    signalCell ratSqrt cfgC3 pricesC3 0 8 = some (-1) := by
  refine ⟨?_, by norm_num [cfgC3, defaultConfig], ?_⟩
  · norm_num [cellAt, weeklyPanel, adjCloses, cfgC3, defaultConfig, pricesC3,
      maskSeries, seriesC3A, get_return, shift, optDiv]
  · rw [signalCell_resample ratSqrt cfgC3 pricesC3 0 8 (by decide) (by decide) (by decide)]
    show combinedCell ratSqrt cfgC3 pricesC3 0 7 = some (-1)
    exact combinedCellC3

theorem combinedCellC4at3 : combinedCell ratSqrt cfgC4 pricesC4 0 3 = some (-1) := by
  have hrow : rowAt (momentumPanel ratSqrt cfgC4 pricesC4) 3 = [some 0, some (21 / 5)] := by
    norm_num [rowAt, momentumPanel, adjCloses, cfgC4, defaultConfig, pricesC4,
      get_momentum, get_return, dailyReturn, rollingStd, shift, optDiv, seqOpt,
      maskSeries, seriesC4A, seriesC4B, mean, sampleVar, ratSqrt, List.range_succ]
  have hm0 : cellAt (momentumPanel ratSqrt cfgC4 pricesC4) 0 3 = some 0 := by
    norm_num [cellAt, momentumPanel, adjCloses, cfgC4, defaultConfig, pricesC4,
      get_momentum, get_return, dailyReturn, rollingStd, shift, optDiv, seqOpt,
      maskSeries, seriesC4A, mean, sampleVar, ratSqrt, List.range_succ]
  have hw : cellAt (weeklyPanel cfgC4 pricesC4) 0 3 = none := by
    norm_num [cellAt, weeklyPanel, adjCloses, cfgC4, defaultConfig, pricesC4,
      maskSeries, seriesC4A, get_return, shift, optDiv]
  have hpct : cfgC4.TOP_N_PCT = some 50 := rfl
  have hlo : cfgC4.LONG_ONLY = false := rfl
  have hso : cfgC4.SHORT_ONLY = false := rfl
  norm_num [combinedCell, selPanels, combineSignals, longsInt, shortsInt,
    hpct, hlo, hso, hm0, hrow, hw, pctRank, definedVals, rankAvg,
    List.countP_cons, List.countP_nil, List.filterMap_cons, List.filterMap_nil]

theorem combinedCellC4at5 : combinedCell ratSqrt cfgC4 pricesC4 0 5 = some 1 := by
  have hrow : rowAt (momentumPanel ratSqrt cfgC4 pricesC4) 5 = [some (21 / 5), some 0] := by
    norm_num [rowAt, momentumPanel, adjCloses, cfgC4, defaultConfig, pricesC4,
      get_momentum, get_return, dailyReturn, rollingStd, shift, optDiv, seqOpt,
      maskSeries, seriesC4A, seriesC4B, mean, sampleVar, ratSqrt, List.range_succ]
  have hm0 : cellAt (momentumPanel ratSqrt cfgC4 pricesC4) 0 5 = some (21 / 5) := by
    norm_num [cellAt, momentumPanel, adjCloses, cfgC4, defaultConfig, pricesC4,
      get_momentum, get_return, dailyReturn, rollingStd, shift, optDiv, seqOpt,
      maskSeries, seriesC4A, mean, sampleVar, ratSqrt, List.range_succ]
  have hw : cellAt (weeklyPanel cfgC4 pricesC4) 0 5 = some (21 / 100) := by
    norm_num [cellAt, weeklyPanel, adjCloses, cfgC4, defaultConfig, pricesC4,
      maskSeries, seriesC4A, get_return, shift, optDiv]
  have hpct : cfgC4.TOP_N_PCT = some 50 := rfl
  have hesc : cfgC4.ESCAPE_WEEKLY_CHANGE_LIMIT = 1 / 10 := rfl
  have hlo : cfgC4.LONG_ONLY = false := rfl
  have hso : cfgC4.SHORT_ONLY = false := rfl
  norm_num [combinedCell, selPanels, combineSignals, longsInt, shortsInt,
    hpct, hesc, hlo, hso, hm0, hrow, hw, pctRank, definedVals, rankAvg,
    List.countP_cons, List.countP_nil, List.filterMap_cons, List.filterMap_nil]

/-- C4 counterexample: dates 4 and 5 lie in the same rebalance period
(period index 2 of length 2), yet the returned signal of instrument A is
`-1` at date 4 (forward-filled from the period-1 label, date 3) and `+1` at
date 5 (its own period's label): the returned panel is not constant within
the period, and at date 4 it does not equal the last pre-resample signal of
its period (which is `+1`, the final conjunct). -/
theorem c4_counterexample :
    (4 / cfgC4.REBALANCE_INTERVAL = 2 ∧ 5 / cfgC4.REBALANCE_INTERVAL = 2) ∧
    signalCell ratSqrt cfgC4 pricesC4 0 4 = some (-1) ∧
    signalCell ratSqrt cfgC4 pricesC4 0 5 = some 1 ∧
    combinedCell ratSqrt cfgC4 pricesC4 0 5 = some 1 := by
  refine ⟨⟨by decide, by decide⟩, ?_, ?_, combinedCellC4at5⟩
  · rw [signalCell_resample ratSqrt cfgC4 pricesC4 0 4 (by decide) (by decide) (by decide)]
    show combinedCell ratSqrt cfgC4 pricesC4 0 3 = some (-1)
    exact combinedCellC4at3
  · rw [signalCell_resample ratSqrt cfgC4 pricesC4 0 5 (by decide) (by decide) (by decide)]
    show combinedCell ratSqrt cfgC4 pricesC4 0 5 = some 1
    exact combinedCellC4at5

/-- C4 (amended): the returned signal panel is a step function of time, but
its steps run from one period-end label to the next, not across each
period: the cell at date `t` is unknown before the first period-end label
(`t + 1 < REBALANCE_INTERVAL`), and otherwise equals the pre-resample
combined signal at the most recent period-end label at or before `t`
(clipped to the final in-frame date for a partial final period); hence two
dates whose most recent labels agree carry equal signals (the value changes
only when a new period-end label is passed). -/
theorem c4_resampled_signal (sq : ℚ → ℚ) (cfg : Config) (pr : Prices) (i t : Nat)
    (hP : cfg.REBALANCE_INTERVAL ≠ 0) (hi : i < pr.closes.length) :
    (t + 1 < cfg.REBALANCE_INTERVAL → signalCell sq cfg pr i t = none) ∧
    (cfg.REBALANCE_INTERVAL ≤ t + 1 →
      signalCell sq cfg pr i t
        = combinedCell sq cfg pr i
            (min (pr.len - 1)
              ((t + 1 - cfg.REBALANCE_INTERVAL) / cfg.REBALANCE_INTERVAL *
                  cfg.REBALANCE_INTERVAL + (cfg.REBALANCE_INTERVAL - 1)))) ∧
    (∀ t', cfg.REBALANCE_INTERVAL ≤ t + 1 → cfg.REBALANCE_INTERVAL ≤ t' + 1 →
      (t + 1 - cfg.REBALANCE_INTERVAL) / cfg.REBALANCE_INTERVAL
        = (t' + 1 - cfg.REBALANCE_INTERVAL) / cfg.REBALANCE_INTERVAL →
      signalCell sq cfg pr i t = signalCell sq cfg pr i t') := by
  refine ⟨signalCell_before_first sq cfg pr i t,
    fun ht => signalCell_resample sq cfg pr i t hP hi ht, ?_⟩
  intro t' h1 h2 h3
  rw [signalCell_resample sq cfg pr i t hP hi h1,
    signalCell_resample sq cfg pr i t' hP hi h2, h3]

/-- Witness for `c4_resampled_signal`: the resample characterisation at the
C4 panel, instrument A, date 4. -/
theorem c4_resampled_signal_witness :
    signalCell ratSqrt cfgC4 pricesC4 0 4
      = combinedCell ratSqrt cfgC4 pricesC4 0
          (min (pricesC4.len - 1)
            ((4 + 1 - cfgC4.REBALANCE_INTERVAL) / cfgC4.REBALANCE_INTERVAL *
                cfgC4.REBALANCE_INTERVAL + (cfgC4.REBALANCE_INTERVAL - 1))) :=
  (c4_resampled_signal ratSqrt cfgC4 pricesC4 0 4 (by decide) (by decide)).2.1
    (by decide)

theorem selPanels_not_selected (cfg : Config) (mom : List Series) (sel : Sel)
    (h : selPanels cfg mom = some sel) (i t : Nat) (hm : cellAt mom i t = none) :
    sel.longs i t = false ∧ sel.shorts i t = false := by
  unfold selPanels at h
  cases hp : cfg.TOP_N_PCT with
  | some pct =>
    rw [hp] at h
    injection h with h
    subst h
    simp [hm]
  | none =>
    rw [hp] at h
    cases hc : cfg.TOP_N_COUNT with
    | some cnt =>
      rw [hc] at h
      injection h with h
      subst h
      simp [hm]
    | none =>
      rw [hc] at h
      cases h

theorem longsInt_of_not_sel (cfg : Config) (w : List Series) (sel : Sel) (i t : Nat)
    (h : sel.longs i t = false) : longsInt cfg w sel i t = 0 := by
  unfold longsInt
  rw [h]
  split <;> rfl

theorem shortsInt_of_not_sel (cfg : Config) (w : List Series) (sel : Sel) (i t : Nat)
    (h : sel.shorts i t = false) : shortsInt cfg w sel i t = 0 := by
  unfold shortsInt
  rw [h]
  split <;> rfl

theorem combineSignals_zero (cfg : Config) (l s : Nat → Nat → Int) (i t : Nat)
    (hl : l i t = 0) (hs : s i t = 0) : combineSignals cfg l s i t = 0 := by
  unfold combineSignals
  rw [hl, hs]
  split
  · rfl
  · split
    · rfl
    · norm_num

theorem adjCloses_mask_none (cfg : Config) (pr : Prices) (i t : Nat) (v : ℚ)
    (hE : cfg.EWM_COM = none) (hv : cellAt pr.closes i t = some v)
    (hle : v ≤ cfg.PRICE_LOWER_LIMIT) : cellAt (adjCloses cfg pr) i t = none := by
  unfold adjCloses
  rw [hE]
  show cellAt (pr.closes.map (maskSeries cfg.PRICE_LOWER_LIMIT)) i t = none
  unfold cellAt at hv ⊢
  rw [List.get?_map]
  cases ho : pr.closes.get? i with
  | none => rw [ho] at hv; cases hv
  | some s =>
    rw [ho] at hv
    replace hv : s t = some v := hv
    simp only [Option.map_some']
    show maskSeries cfg.PRICE_LOWER_LIMIT s t = none
    unfold maskSeries
    rw [hv]
    exact if_neg (not_lt.mpr hle)

theorem momentum_none_of_close_none (sq : ℚ → ℚ) (cfg : Config) (pr : Prices) (i t : Nat)
    (h : cellAt (adjCloses cfg pr) i t = none) :
    cellAt (momentumPanel sq cfg pr) i t = none := by
  unfold momentumPanel
  unfold cellAt at h ⊢
  rw [List.get?_map]
  cases ho : (adjCloses cfg pr).get? i with
  | none => rfl
  | some s =>
    rw [ho] at h
    replace h : s t = none := h
    simp only [Option.map_some']
    show get_momentum sq s cfg.MOMENTUM_WINDOW cfg.VOLATILITY_WINDOW t = none
    unfold get_momentum get_return
    rw [h]
    rfl

/-- C6 counterexample: with exponential smoothing enabled
(`EWM_COM = some 1`, a configuration the source supports), instrument A's
raw close at date 3 is 90, at or below `PRICE_LOWER_LIMIT = 100`, and is
masked — yet the smoother refills the masked date from earlier closes, the
instrument's momentum at date 3 is defined, and it is even selected as a
long candidate that date.  The masked instrument is not excluded from that
date's ranking universe, refuting the claim's "so it is excluded"
consequence for every panel and configuration. -/
theorem c6_counterexample :
    cellAt pricesC6.closes 0 3 = some 90 ∧
    (90 : ℚ) ≤ cfgC6.PRICE_LOWER_LIMIT ∧
    longsCell ratSqrt cfgC6 pricesC6 0 3 = some 1 := by
  refine ⟨by norm_num [cellAt, pricesC6, seriesC6A],
    by norm_num [cfgC6, defaultConfig], ?_⟩
  have hrow : rowAt (momentumPanel ratSqrt cfgC6 pricesC6) 3 = [some 0, some 0] := by
    norm_num [rowAt, momentumPanel, adjCloses, cfgC6, defaultConfig, pricesC6,
      get_momentum, get_return, dailyReturn, rollingStd, shift, optDiv, seqOpt,
      maskSeries, seriesC6A, constSeries, ewmMean, mean, sampleVar, ratSqrt,
      List.range_succ, List.filterMap_cons, List.filterMap_nil]
  have hm0 : cellAt (momentumPanel ratSqrt cfgC6 pricesC6) 0 3 = some 0 := by
    norm_num [cellAt, momentumPanel, adjCloses, cfgC6, defaultConfig, pricesC6,
      get_momentum, get_return, dailyReturn, rollingStd, shift, optDiv, seqOpt,
      maskSeries, seriesC6A, ewmMean, mean, sampleVar, ratSqrt,
      List.range_succ, List.filterMap_cons, List.filterMap_nil]
  have hw : cellAt (weeklyPanel cfgC6 pricesC6) 0 3 = none := by
    norm_num [cellAt, weeklyPanel, adjCloses, cfgC6, defaultConfig, pricesC6,
      maskSeries, seriesC6A, ewmMean, get_return, shift, optDiv,
      List.range_succ, List.filterMap_cons, List.filterMap_nil]
  have hpct : cfgC6.TOP_N_PCT = some 100 := rfl
  have hesc : cfgC6.ESCAPE_WEEKLY_CHANGE_LIMIT = 1 / 10 := rfl
  norm_num [longsCell, selPanels, longsInt, hpct, hesc, hm0, hrow, hw,
    pctRank, definedVals, rankAvg,
    List.countP_cons, List.countP_nil, List.filterMap_cons, List.filterMap_nil]

/-- C6 (amended): with exponential smoothing disabled (`EWM_COM = None`, the
source default), an instrument whose close at a date is at or below
`PRICE_LOWER_LIMIT` is masked to unknown at that date before any downstream
computation and is excluded from that date's ranking universe: its masked
close and momentum score are unknown, it is never selected long or short,
and its pre-resample combined signal at that date is 0 (neutral) whenever
the selection configuration is valid. -/
theorem c6_price_mask (sq : ℚ → ℚ) (cfg : Config) (pr : Prices) (i t : Nat) (v : ℚ)
    (hE : cfg.EWM_COM = none) (hv : cellAt pr.closes i t = some v)
    (hle : v ≤ cfg.PRICE_LOWER_LIMIT) :
    cellAt (adjCloses cfg pr) i t = none ∧
    cellAt (momentumPanel sq cfg pr) i t = none ∧
    (longsCell sq cfg pr i t = none ∨ longsCell sq cfg pr i t = some 0) ∧
    (shortsCell sq cfg pr i t = none ∨ shortsCell sq cfg pr i t = some 0) ∧
    (combinedCell sq cfg pr i t = none ∨ combinedCell sq cfg pr i t = some 0) := by
  have hmask := adjCloses_mask_none cfg pr i t v hE hv hle
  have hmom := momentum_none_of_close_none sq cfg pr i t hmask
  refine ⟨hmask, hmom, ?_, ?_, ?_⟩
  · unfold longsCell
    cases hsel : selPanels cfg (momentumPanel sq cfg pr) with
    | none => exact Or.inl rfl
    | some sel =>
      right
      show some (longsInt cfg (weeklyPanel cfg pr) sel i t) = some 0
      rw [longsInt_of_not_sel cfg _ sel i t
        (selPanels_not_selected cfg _ sel hsel i t hmom).1]
  · unfold shortsCell
    cases hsel : selPanels cfg (momentumPanel sq cfg pr) with
    | none => exact Or.inl rfl
    | some sel =>
      right
      show some (shortsInt cfg (weeklyPanel cfg pr) sel i t) = some 0
      rw [shortsInt_of_not_sel cfg _ sel i t
        (selPanels_not_selected cfg _ sel hsel i t hmom).2]
  · unfold combinedCell
    cases hsel : selPanels cfg (momentumPanel sq cfg pr) with
    | none => exact Or.inl rfl
    | some sel =>
      right
      show some (combineSignals cfg (longsInt cfg (weeklyPanel cfg pr) sel)
        (shortsInt cfg (weeklyPanel cfg pr) sel) i t) = some 0
      rw [combineSignals_zero cfg _ _ i t
        (longsInt_of_not_sel cfg _ sel i t
          (selPanels_not_selected cfg _ sel hsel i t hmom).1)
        (shortsInt_of_not_sel cfg _ sel i t
          (selPanels_not_selected cfg _ sel hsel i t hmom).2)]

/-- Witness for `c6_price_mask`: the default configuration with a
one-instrument panel whose close 50 is below the limit at date 0; the
momentum cell there is unknown. -/
theorem c6_price_mask_witness :
    cellAt (momentumPanel ratSqrt defaultConfig pricesLow) 0 0 = none :=
  (c6_price_mask ratSqrt defaultConfig pricesLow 0 0 50 rfl
    (by norm_num [cellAt, pricesLow, constSeries])
    (by norm_num [defaultConfig])).2.1

/-- C10: the two selection modes are unvalidated.  (a) When `TOP_N_PCT` is
set, the output does not depend on `TOP_N_COUNT` at all (percentile mode
silently takes precedence, source line 81).  (b) When neither is set,
`prices_to_signals` produces no signal frame at all — the embedded `none`,
modelling the uncaught `NameError` (`longs`/`shorts` never bound) rather
than a clear configuration error. -/
theorem c10_selection_modes (sq : ℚ → ℚ) (cfg : Config) (pr : Prices) :
    (∀ (pct : ℚ) (cnt cnt' : Option ℚ),
      prices_to_signals sq { cfg with TOP_N_PCT := some pct, TOP_N_COUNT := cnt } pr
        = prices_to_signals sq { cfg with TOP_N_PCT := some pct, TOP_N_COUNT := cnt' } pr) ∧
    (cfg.TOP_N_PCT = none → cfg.TOP_N_COUNT = none →
      prices_to_signals sq cfg pr = none) := by
  constructor
  · intro pct cnt cnt'
    rfl
  · intro h1 h2
    unfold prices_to_signals selPanels
    rw [h1, h2]

/-- Witness for `c10_selection_modes` at a concrete configuration with both
modes unset and the empty panel. -/
theorem c10_selection_modes_witness :
    prices_to_signals ratSqrt cfgNeither emptyPrices = none :=
  (c10_selection_modes ratSqrt cfgNeither emptyPrices).2 rfl rfl

end MomentumScore
